import Mathlib

/-!
# A shallow embedding of the ChatGPT REPL (`src/main.go`)

The program is one function, `main`: it reads an API key, then loops reading
one line per turn, interpreting `exit`, `quit` and `clear`, and otherwise
sending the whole conversation to the chat-completion endpoint.

Modelling conventions.

* Go strings are modelled by `String` (valid UTF-8 text); Go `len(s)` is the
  byte length `String.utf8ByteSize`.
* A Go slice `[]ChatMessage` is a `List ChatMessage`; `append(h, x)` is
  `h ++ [x]`.
* Go `error` values are modelled by their message (`err.Error()`), `nil` by
  `none` or by `Except.ok`.
* The outside world is explicit: `Lib` holds the deterministic library
  functions (`json.Marshal`, `http.NewRequest`, `json.Unmarshal`), `World` holds
  what the terminal and the network do during one turn.
* Everything the program does to the outside is recorded, in order, as a list
  of `Event`s.
-/

namespace ChatRepl

/-! ## Data model (lines 14-36) -/

/-- Line 14: `const apiURL`. -/
def apiURL : String := "https://api.openai.com/v1/chat/completions"

/-- Lines 16-19: `type ChatMessage struct`. -/
structure ChatMessage where
  Role : String
  Content : String
deriving DecidableEq, Repr

/-- Lines 21-24: `type ChatRequest struct`. -/
structure ChatRequest where
  Model : String
  Messages : List ChatMessage
deriving DecidableEq, Repr

/-- Lines 27-33: the element type of `ChatResponse.Choices`. Its `Message` field
is an anonymous struct with the same two fields as `ChatMessage`. -/
structure Choice where
  Message : ChatMessage
  FinishReason : String
deriving DecidableEq, Repr

/-- Lines 26-34: `type ChatResponse struct`. -/
structure ChatResponse where
  Choices : List Choice
deriving DecidableEq, Repr

/-- Line 36: `const maxInputChars = 3000`. -/
def maxInputChars : Nat := 3000

/-! ## Standard library pieces the program uses -/

/-- Go `unicode.IsSpace`: the Latin-1 spaces `\t \n \v \f \r`, space, U+0085,
U+00A0, and the code points with the Unicode White_Space property. -/
def isSpace (c : Char) : Bool :=
  let n := c.toNat
  n == 0x09 || n == 0x0A || n == 0x0B || n == 0x0C || n == 0x0D || n == 0x20
    || n == 0x85 || n == 0xA0 || n == 0x1680 || (0x2000 ≤ n && n ≤ 0x200A)
    || n == 0x2028 || n == 0x2029 || n == 0x202F || n == 0x205F || n == 0x3000

/-- Go `strings.TrimSpace`: the string without its leading and trailing white
space, as defined by `unicode.IsSpace`. -/
def TrimSpace (s : String) : String :=
  ⟨((s.data.dropWhile isSpace).reverse.dropWhile isSpace).reverse⟩

/-- Go `http.Header` (`map[string][]string`) as an association list. -/
abbrev Header := List (String × List String)

/-- Go `Header.Set`: the entry for `key` becomes the single value `value`. The
two keys the program sets are already in canonical MIME form. -/
def Header.Set (h : Header) (key value : String) : Header :=
  (key, [value]) :: h.filter (fun p => p.1 != key)

/-- Go `Header.Get`: the first value stored under `key`, or the empty string. -/
def Header.Get (h : Header) (key : String) : String :=
  match h.lookup key with
  | some (v :: _) => v
  | _ => ""

/-- The parts of a Go `http.Request` the program determines. -/
structure Request where
  Method : String
  URL : String
  Header : Header
  Body : String
deriving DecidableEq, Repr

/-- The parts of a Go `http.Response` the program reads. `Body` is what
`io.ReadAll(resp.Body)` returned (line 109 discards its error). -/
structure Response where
  Status : String
  StatusCode : Int
  Body : String
deriving DecidableEq, Repr

/-- The deterministic library functions called by the send path.
`NewRequest method url` is the error of `http.NewRequest`, `none` for `nil`;
on success the request carries the given method, URL and body and an empty
header. -/
structure Lib where
  Marshal : ChatRequest → Except String String
  NewRequest : String → String → Option String
  Unmarshal : String → Except String ChatResponse

/-- Result of `reader.ReadString('\n')`: the data read and the error. -/
structure ReadResult where
  data : String
  err : Option String
deriving DecidableEq, Repr

/-- What the outside does during one turn: the line read at line 61 and the
answer of `http.DefaultClient.Do` (line 102) to the request it is given. -/
structure World where
  line : ReadResult
  Do : Request → Except String Response

/-- Observable actions, in program order. -/
inductive Event where
  /-- A write to standard output (`fmt.Print`, `fmt.Println`, `fmt.Printf`). -/
  | print (s : String)
  /-- The call `json.Marshal(requestBody)` at line 87. -/
  | marshal (r : ChatRequest)
  /-- The call `http.DefaultClient.Do(req)` at line 102. -/
  | httpDo (req : Request)
deriving DecidableEq, Repr

/-- The strings written to standard output, in order. -/
def stdout : List Event → List String
  | [] => []
  | .print s :: t => s :: stdout t
  | _ :: t => stdout t

/-- The HTTP requests handed to the transport, in order. -/
def sent : List Event → List Request
  | [] => []
  | .httpDo r :: t => r :: sent t
  | _ :: t => sent t

/-- The `ChatRequest` values built and handed to the serializer, in order. -/
def built : List Event → List ChatRequest
  | [] => []
  | .marshal r :: t => r :: built t
  | _ :: t => built t

/-! ## The program -/

/-- Lines 55-57: the initial history element. -/
def systemPrompt : ChatMessage := ⟨"system", "You are a helpful assistant."⟩

/-- Line 77: the text `Printf` writes for the format
`"⚠️ Warning: Input is very long (%d chars). Consider shortening.\n"`. -/
def warningText (n : Nat) : String :=
  "⚠️ Warning: Input is very long (" ++ toString n ++ " chars). Consider shortening.\n"

/-- Lines 75-78: the advisory length check on `len(input)`. -/
def lengthWarning (input : String) : List Event :=
  if input.utf8ByteSize > maxInputChars then
    [.print (warningText input.utf8ByteSize)]
  else []

/-- Lines 93-100 when `http.NewRequest` succeeds: a POST to `apiURL` with body
`jsonData`, on which the two headers are then set. -/
def mkRequest (apiKey jsonData : String) : Request :=
  let req : Request := ⟨"POST", apiURL, [], jsonData⟩
  let req := { req with Header := req.Header.Set "Content-Type" "application/json" }
  { req with Header := req.Header.Set "Authorization" ("Bearer " ++ apiKey) }

/-- State after one pass through the loop body: the history, what the pass did,
and `some 0` when the pass executed `return` (the process ends with status 0),
`none` when it reached `continue` or the end of the body. -/
structure TurnResult where
  history : List ChatMessage
  trace : List Event
  exit : Option Nat
deriving DecidableEq, Repr

/-- Lines 87-131: the send path, entered with the history that already holds
the new user message. -/
def send (lib : Lib) (apiKey : String) (history : List ChatMessage) (w : World) :
    TurnResult :=
  let requestBody : ChatRequest := ⟨"gpt-3.5-turbo", history⟩
  match lib.Marshal requestBody with
  | .error err =>
    ⟨history, [.marshal requestBody,
      .print ("❌ Failed to marshal request: " ++ err ++ "\n")], none⟩
  | .ok jsonData =>
    match lib.NewRequest "POST" apiURL with
    | some err =>
      ⟨history, [.marshal requestBody,
        .print ("❌ Failed to create request: " ++ err ++ "\n")], none⟩
    | none =>
      let req := mkRequest apiKey jsonData
      match w.Do req with
      | .error err =>
        ⟨history, [.marshal requestBody, .httpDo req,
          .print ("❌ Request failed: " ++ err ++ "\n")], none⟩
      | .ok resp =>
        if resp.StatusCode ≠ 200 then
          ⟨history, [.marshal requestBody, .httpDo req,
            .print ("❌ API error: " ++ resp.Status ++ "\n" ++ resp.Body ++ "\n")], none⟩
        else
          match lib.Unmarshal resp.Body with
          | .error err =>
            ⟨history, [.marshal requestBody, .httpDo req,
              .print ("❌ Failed to decode response: " ++ err ++ "\n")], none⟩
          | .ok chatResp =>
            match chatResp.Choices with
            | [] =>
              ⟨history, [.marshal requestBody, .httpDo req,
                .print "❌ No choices returned from API.\n"], none⟩
            | c :: _ =>
              let reply := c.Message.Content
              ⟨history ++ [⟨c.Message.Role, reply⟩],
                [.marshal requestBody, .httpDo req,
                  .print ("GPT: " ++ reply ++ "\n")], none⟩

/-- Lines 60-131: one pass through the loop body. The error of the line read
is discarded (line 61). `history[:1]` is `take 1`: on a slice of length at
least one it is the slice of its first element. -/
def turn (lib : Lib) (apiKey : String) (history : List ChatMessage) (w : World) :
    TurnResult :=
  let input := TrimSpace w.line.data
  if input = "exit" ∨ input = "quit" then
    ⟨history, [.print ">> ", .print "👋 Goodbye!\n"], some 0⟩
  else if input = "clear" then
    ⟨history.take 1, [.print ">> ", .print "🧹 Conversation history cleared.\n"], none⟩
  else
    let r := send lib apiKey (history ++ [⟨"user", input⟩]) w
    ⟨r.history, [.print ">> "] ++ lengthWarning input ++ r.trace, r.exit⟩

/-- Lines 59-132: the loop, run over the turns described by `ws`. The result
has `exit = none` when all of `ws` was consumed and the loop is still
running. -/
def loop (lib : Lib) (apiKey : String) : List ChatMessage → List World → TurnResult
  | history, [] => ⟨history, [], none⟩
  | history, w :: ws =>
    let r := turn lib apiKey history w
    match r.exit with
    | some code => ⟨r.history, r.trace, some code⟩
    | none =>
      let r2 := loop lib apiKey r.history ws
      ⟨r2.history, r.trace ++ r2.trace, r2.exit⟩

/-- A run of the process: what it did, the history if it was created, and the
exit status once the process has ended. -/
structure Run where
  history : Option (List ChatMessage)
  trace : List Event
  exit : Option Nat
deriving DecidableEq, Repr

/-- Lines 38-133: `main`, given the result of the first line read and the
turns that follow. -/
def main (lib : Lib) (keyRead : ReadResult) (ws : List World) : Run :=
  match keyRead.err with
  | some err =>
    ⟨none, [.print "🔑 Enter your OpenAI API key: ",
      .print ("❌ Failed to read API key: " ++ err ++ "\n")], some 1⟩
  | none =>
    let apiKey := TrimSpace keyRead.data
    if apiKey = "" then
      ⟨none, [.print "🔑 Enter your OpenAI API key: ",
        .print "❌ API key is required.\n"], some 1⟩
    else
      let r := loop lib apiKey [systemPrompt] ws
      ⟨some r.history, [.print "🔑 Enter your OpenAI API key: ",
        .print "🤖 ChatGPT REPL (type 'exit' to quit, 'clear' to reset)\n"] ++ r.trace,
        r.exit⟩

/-! ## Fixtures for concrete runs -/

/-- A serializer that always succeeds, with a fixed placeholder body. -/
def okLib (resp : Except String ChatResponse) : Lib :=
  ⟨fun _ => .ok "body", fun _ _ => none, fun _ => resp⟩

/-- A turn in which `line` is read without error and the transport answers
`answer` to any request. -/
def world (line : String) (answer : Except String Response) : World :=
  ⟨⟨line, none⟩, fun _ => answer⟩

/-- The response body of the scenario in the specification:
`\x7b"choices":[\x7b"message":\x7b"role":"assistant","content":"hi there"\x7d,"finish_reason":"stop"\x7d]\x7d`. -/
def helloBody : String :=
  "\x7b\"choices\":[\x7b\"message\":\x7b\"role\":\"assistant\",\"content\":\"hi there\"\x7d," ++
    "\"finish_reason\":\"stop\"\x7d]\x7d"

/-- The decoded form of `helloBody`. -/
def helloResponse : ChatResponse := ⟨[⟨⟨"assistant", "hi there"⟩, "stop"⟩]⟩

/-- A library for the scenario: serialization and construction succeed, and
the decoder knows `helloBody`, the empty choice list and nothing else. -/
def scenarioLib : Lib :=
  ⟨fun _ => .ok "body", fun _ _ => none,
    fun b => if b = helloBody then .ok helloResponse
      else if b = "\x7b\"choices\":[]\x7d" then .ok ⟨[]⟩
      else .error "invalid character"⟩

/-- A library with the given serializer answer and construction error, whose
decoder rejects every body. -/
def failLib (m : Except String String) (n : Option String) : Lib :=
  ⟨fun _ => m, fun _ _ => n, fun _ => .error "unexpected end of JSON input"⟩

/-- The number a decimal numeral denotes; used to read back the number that
`%d` wrote. -/
def decimalValue (l : List Char) : Nat :=
  l.foldl (fun a c => 10 * a + (c.toNat - 48)) 0

/-! ## Auxiliary facts -/

theorem stdout_append (a b : List Event) : stdout (a ++ b) = stdout a ++ stdout b := by
  induction a with
  | nil => rfl
  | cons e t ih => cases e <;> simp [stdout, ih]

theorem sent_append (a b : List Event) : sent (a ++ b) = sent a ++ sent b := by
  induction a with
  | nil => rfl
  | cons e t ih => cases e <;> simp [sent, ih]

theorem built_append (a b : List Event) : built (a ++ b) = built a ++ built b := by
  induction a with
  | nil => rfl
  | cons e t ih => cases e <;> simp [built, ih]

theorem sent_lengthWarning (s : String) : sent (lengthWarning s) = [] := by
  unfold lengthWarning; split <;> rfl

theorem built_lengthWarning (s : String) : built (lengthWarning s) = [] := by
  unfold lengthWarning; split <;> rfl

/-- The seven ways through the send path, each with the result it produces. -/
theorem send_cases (lib : Lib) (apiKey : String) (h : List ChatMessage) (w : World) :
    (∃ err, lib.Marshal ⟨"gpt-3.5-turbo", h⟩ = .error err ∧
      send lib apiKey h w = ⟨h, [.marshal ⟨"gpt-3.5-turbo", h⟩,
        .print ("❌ Failed to marshal request: " ++ err ++ "\n")], none⟩) ∨
    (∃ j err, lib.Marshal ⟨"gpt-3.5-turbo", h⟩ = .ok j ∧
      lib.NewRequest "POST" apiURL = some err ∧
      send lib apiKey h w = ⟨h, [.marshal ⟨"gpt-3.5-turbo", h⟩,
        .print ("❌ Failed to create request: " ++ err ++ "\n")], none⟩) ∨
    (∃ j err, lib.Marshal ⟨"gpt-3.5-turbo", h⟩ = .ok j ∧
      lib.NewRequest "POST" apiURL = none ∧ w.Do (mkRequest apiKey j) = .error err ∧
      send lib apiKey h w = ⟨h, [.marshal ⟨"gpt-3.5-turbo", h⟩, .httpDo (mkRequest apiKey j),
        .print ("❌ Request failed: " ++ err ++ "\n")], none⟩) ∨
    (∃ j resp, lib.Marshal ⟨"gpt-3.5-turbo", h⟩ = .ok j ∧
      lib.NewRequest "POST" apiURL = none ∧ w.Do (mkRequest apiKey j) = .ok resp ∧
      resp.StatusCode ≠ 200 ∧
      send lib apiKey h w = ⟨h, [.marshal ⟨"gpt-3.5-turbo", h⟩, .httpDo (mkRequest apiKey j),
        .print ("❌ API error: " ++ resp.Status ++ "\n" ++ resp.Body ++ "\n")], none⟩) ∨
    (∃ j resp err, lib.Marshal ⟨"gpt-3.5-turbo", h⟩ = .ok j ∧
      lib.NewRequest "POST" apiURL = none ∧ w.Do (mkRequest apiKey j) = .ok resp ∧
      resp.StatusCode = 200 ∧ lib.Unmarshal resp.Body = .error err ∧
      send lib apiKey h w = ⟨h, [.marshal ⟨"gpt-3.5-turbo", h⟩, .httpDo (mkRequest apiKey j),
        .print ("❌ Failed to decode response: " ++ err ++ "\n")], none⟩) ∨
    (∃ j resp, lib.Marshal ⟨"gpt-3.5-turbo", h⟩ = .ok j ∧
      lib.NewRequest "POST" apiURL = none ∧ w.Do (mkRequest apiKey j) = .ok resp ∧
      resp.StatusCode = 200 ∧ lib.Unmarshal resp.Body = .ok ⟨[]⟩ ∧
      send lib apiKey h w = ⟨h, [.marshal ⟨"gpt-3.5-turbo", h⟩, .httpDo (mkRequest apiKey j),
        .print "❌ No choices returned from API.\n"], none⟩) ∨
    (∃ j resp c cs, lib.Marshal ⟨"gpt-3.5-turbo", h⟩ = .ok j ∧
      lib.NewRequest "POST" apiURL = none ∧ w.Do (mkRequest apiKey j) = .ok resp ∧
      resp.StatusCode = 200 ∧ lib.Unmarshal resp.Body = .ok ⟨c :: cs⟩ ∧
      send lib apiKey h w = ⟨h ++ [⟨c.Message.Role, c.Message.Content⟩],
        [.marshal ⟨"gpt-3.5-turbo", h⟩, .httpDo (mkRequest apiKey j),
          .print ("GPT: " ++ c.Message.Content ++ "\n")], none⟩) := by
  cases hM : lib.Marshal ⟨"gpt-3.5-turbo", h⟩ with
  | error err => exact Or.inl ⟨err, rfl, by simp [send, hM]⟩
  | ok j =>
    right
    cases hN : lib.NewRequest "POST" apiURL with
    | some err => exact Or.inl ⟨j, err, rfl, rfl, by simp [send, hM, hN]⟩
    | none =>
      right
      cases hD : w.Do (mkRequest apiKey j) with
      | error err => exact Or.inl ⟨j, err, rfl, rfl, hD, by simp [send, hM, hN, hD]⟩
      | ok resp =>
        right
        by_cases hS : resp.StatusCode = 200
        · right
          cases hU : lib.Unmarshal resp.Body with
          | error err =>
            exact Or.inl ⟨j, resp, err, rfl, rfl, hD, hS, hU, by simp [send, hM, hN, hD, hS, hU]⟩
          | ok cr =>
            right
            obtain ⟨cs⟩ := cr
            cases cs with
            | nil => exact Or.inl ⟨j, resp, rfl, rfl, hD, hS, hU, by simp [send, hM, hN, hD, hS, hU]⟩
            | cons c cs =>
              exact Or.inr ⟨j, resp, c, cs, rfl, rfl, hD, hS, hU,
                by simp [send, hM, hN, hD, hS, hU]⟩
        · exact Or.inl ⟨j, resp, rfl, rfl, hD, hS, by simp [send, hM, hN, hD, hS]⟩

/-- The send path never executes `return`. -/
theorem send_exit (lib : Lib) (apiKey : String) (h : List ChatMessage) (w : World) :
    (send lib apiKey h w).exit = none := by
  rcases send_cases lib apiKey h w with ⟨_, _, e⟩ | ⟨_, _, _, _, e⟩ | ⟨_, _, _, _, _, e⟩ |
    ⟨_, _, _, _, _, _, e⟩ | ⟨_, _, _, _, _, _, _, _, e⟩ | ⟨_, _, _, _, _, _, _, e⟩ |
    ⟨_, _, _, _, _, _, _, _, _, e⟩ <;> rw [e]

/-- The send path only ever appends to the history it is given. -/
theorem send_history (lib : Lib) (apiKey : String) (h : List ChatMessage) (w : World) :
    (send lib apiKey h w).history = h ∨ ∃ m, (send lib apiKey h w).history = h ++ [m] := by
  rcases send_cases lib apiKey h w with ⟨_, _, e⟩ | ⟨_, _, _, _, e⟩ | ⟨_, _, _, _, _, e⟩ |
    ⟨_, _, _, _, _, _, e⟩ | ⟨_, _, _, _, _, _, _, _, e⟩ | ⟨_, _, _, _, _, _, _, e⟩ |
    ⟨_, _, _, _, _, _, _, _, _, e⟩ <;> rw [e]
  all_goals first
    | exact Or.inl rfl
    | exact Or.inr ⟨_, rfl⟩

/-- The send path builds exactly one `ChatRequest`: the fixed model with the
history it is given. -/
theorem send_built (lib : Lib) (apiKey : String) (h : List ChatMessage) (w : World) :
    built (send lib apiKey h w).trace = [⟨"gpt-3.5-turbo", h⟩] := by
  rcases send_cases lib apiKey h w with ⟨_, _, e⟩ | ⟨_, _, _, _, e⟩ | ⟨_, _, _, _, _, e⟩ |
    ⟨_, _, _, _, _, _, e⟩ | ⟨_, _, _, _, _, _, _, _, e⟩ | ⟨_, _, _, _, _, _, _, e⟩ |
    ⟨_, _, _, _, _, _, _, _, _, e⟩ <;> rw [e] <;> rfl

/-- The send path hands at most one request to the transport, and only after
serialization and construction succeeded; its body is the serialized
`ChatRequest`. -/
theorem send_sent (lib : Lib) (apiKey : String) (h : List ChatMessage) (w : World) :
    (sent (send lib apiKey h w).trace = [] ∧
      ((∃ err, lib.Marshal ⟨"gpt-3.5-turbo", h⟩ = .error err) ∨
        ∃ err, lib.NewRequest "POST" apiURL = some err)) ∨
      ∃ jsonData, lib.Marshal ⟨"gpt-3.5-turbo", h⟩ = .ok jsonData ∧
        lib.NewRequest "POST" apiURL = none ∧
        sent (send lib apiKey h w).trace = [mkRequest apiKey jsonData] := by
  rcases send_cases lib apiKey h w with ⟨x, hm, e⟩ | ⟨_, x, _, hn, e⟩ | ⟨j, _, hm, hn, _, e⟩ |
    ⟨j, _, hm, hn, _, _, e⟩ | ⟨j, _, _, hm, hn, _, _, _, e⟩ | ⟨j, _, hm, hn, _, _, _, e⟩ |
    ⟨j, _, _, _, hm, hn, _, _, _, e⟩ <;> rw [e]
  · exact Or.inl ⟨rfl, Or.inl ⟨x, hm⟩⟩
  · exact Or.inl ⟨rfl, Or.inr ⟨x, hn⟩⟩
  all_goals exact Or.inr ⟨j, hm, hn, rfl⟩

/-- Result of a turn whose trimmed line is `exit` or `quit`. -/
theorem turn_of_exit (lib : Lib) (apiKey : String) (h : List ChatMessage) (w : World)
    (hx : TrimSpace w.line.data = "exit" ∨ TrimSpace w.line.data = "quit") :
    turn lib apiKey h w = ⟨h, [.print ">> ", .print "👋 Goodbye!\n"], some 0⟩ := by
  unfold turn
  simp only [if_pos hx]

/-- Result of a turn whose trimmed line is `clear`. -/
theorem turn_of_clear (lib : Lib) (apiKey : String) (h : List ChatMessage) (w : World)
    (hc : TrimSpace w.line.data = "clear") :
    turn lib apiKey h w =
      ⟨h.take 1, [.print ">> ", .print "🧹 Conversation history cleared.\n"], none⟩ := by
  have hx : ¬ (TrimSpace w.line.data = "exit" ∨ TrimSpace w.line.data = "quit") := by
    rw [hc]; decide
  unfold turn
  simp only [if_neg hx, if_pos hc]

/-- Result of a turn whose trimmed line is none of the three commands. -/
theorem turn_of_chat (lib : Lib) (apiKey : String) (h : List ChatMessage) (w : World)
    (h1 : TrimSpace w.line.data ≠ "exit") (h2 : TrimSpace w.line.data ≠ "quit")
    (h3 : TrimSpace w.line.data ≠ "clear") :
    turn lib apiKey h w =
      ⟨(send lib apiKey (h ++ [⟨"user", TrimSpace w.line.data⟩]) w).history,
        [.print ">> "] ++ lengthWarning (TrimSpace w.line.data) ++
          (send lib apiKey (h ++ [⟨"user", TrimSpace w.line.data⟩]) w).trace,
        (send lib apiKey (h ++ [⟨"user", TrimSpace w.line.data⟩]) w).exit⟩ := by
  have hx : ¬ (TrimSpace w.line.data = "exit" ∨ TrimSpace w.line.data = "quit") := by
    rintro (hx | hx)
    · exact h1 hx
    · exact h2 hx
  unfold turn
  simp only [if_neg hx, if_neg h3]

/-- The requests a chat turn hands to the transport are those of its send path. -/
theorem turn_chat_sent (lib : Lib) (apiKey : String) (h : List ChatMessage) (w : World)
    (h1 : TrimSpace w.line.data ≠ "exit") (h2 : TrimSpace w.line.data ≠ "quit")
    (h3 : TrimSpace w.line.data ≠ "clear") :
    sent (turn lib apiKey h w).trace =
      sent (send lib apiKey (h ++ [⟨"user", TrimSpace w.line.data⟩]) w).trace := by
  rw [turn_of_chat lib apiKey h w h1 h2 h3]
  show sent ([.print ">> "] ++ lengthWarning (TrimSpace w.line.data) ++ _) = _
  rw [sent_append, sent_append, sent_lengthWarning]
  rfl

/-- The `ChatRequest`s a chat turn builds are those of its send path. -/
theorem turn_chat_built (lib : Lib) (apiKey : String) (h : List ChatMessage) (w : World)
    (h1 : TrimSpace w.line.data ≠ "exit") (h2 : TrimSpace w.line.data ≠ "quit")
    (h3 : TrimSpace w.line.data ≠ "clear") :
    built (turn lib apiKey h w).trace =
      built (send lib apiKey (h ++ [⟨"user", TrimSpace w.line.data⟩]) w).trace := by
  rw [turn_of_chat lib apiKey h w h1 h2 h3]
  show built ([.print ">> "] ++ lengthWarning (TrimSpace w.line.data) ++ _) = _
  rw [built_append, built_append, built_lengthWarning]
  rfl

/-- A turn keeps the first element of a non-empty history in place. -/
theorem turn_history_cons (lib : Lib) (apiKey : String) (m : ChatMessage)
    (t : List ChatMessage) (w : World) :
    ∃ t2, (turn lib apiKey (m :: t) w).history = m :: t2 := by
  by_cases hx : TrimSpace w.line.data = "exit" ∨ TrimSpace w.line.data = "quit"
  · exact ⟨t, by rw [turn_of_exit lib apiKey _ w hx]⟩
  · by_cases hc : TrimSpace w.line.data = "clear"
    · exact ⟨[], by rw [turn_of_clear lib apiKey _ w hc]; rfl⟩
    · rw [turn_of_chat lib apiKey _ w (fun e => hx (Or.inl e)) (fun e => hx (Or.inr e)) hc]
      rcases send_history lib apiKey (m :: t ++ [⟨"user", TrimSpace w.line.data⟩]) w with
        e | ⟨x, e⟩
      · exact ⟨_, e⟩
      · exact ⟨_, e⟩

/-- The loop keeps the first element of a non-empty history in place. -/
theorem loop_history_cons (lib : Lib) (apiKey : String) (ws : List World) :
    ∀ (m : ChatMessage) (t : List ChatMessage),
      ∃ t2, (loop lib apiKey (m :: t) ws).history = m :: t2 := by
  induction ws with
  | nil => intro m t; exact ⟨t, rfl⟩
  | cons w ws ih =>
    intro m t
    obtain ⟨t1, ht1⟩ := turn_history_cons lib apiKey m t w
    cases hE : (turn lib apiKey (m :: t) w).exit with
    | some code => exact ⟨t1, by simp [loop, hE, ht1]⟩
    | none =>
      obtain ⟨t2, ht2⟩ := ih m t1
      exact ⟨t2, by simp [loop, hE, ht1, ht2]⟩

/-- Every request a turn hands to the transport was made by `mkRequest` with
the session key. -/
theorem turn_sent_mkRequest (lib : Lib) (apiKey : String) (h : List ChatMessage)
    (w : World) : ∀ req ∈ sent (turn lib apiKey h w).trace, ∃ j, req = mkRequest apiKey j := by
  intro req hreq
  by_cases hx : TrimSpace w.line.data = "exit" ∨ TrimSpace w.line.data = "quit"
  · rw [turn_of_exit lib apiKey h w hx] at hreq
    simp [sent] at hreq
  · by_cases hc : TrimSpace w.line.data = "clear"
    · rw [turn_of_clear lib apiKey h w hc] at hreq
      simp [sent] at hreq
    · rw [turn_chat_sent lib apiKey h w (fun e => hx (Or.inl e)) (fun e => hx (Or.inr e)) hc]
        at hreq
      rcases send_sent lib apiKey (h ++ [⟨"user", TrimSpace w.line.data⟩]) w with
        ⟨e, _⟩ | ⟨j, _, _, e⟩
      · rw [e] at hreq; simp at hreq
      · rw [e] at hreq
        exact ⟨j, by simpa using hreq⟩

/-- Every request of the loop was made by `mkRequest` with the session key. -/
theorem loop_sent_mkRequest (lib : Lib) (apiKey : String) (ws : List World) :
    ∀ (h : List ChatMessage), ∀ req ∈ sent (loop lib apiKey h ws).trace,
      ∃ j, req = mkRequest apiKey j := by
  induction ws with
  | nil => intro h req hreq; simp [loop, sent] at hreq
  | cons w ws ih =>
    intro h req hreq
    cases hE : (turn lib apiKey h w).exit with
    | some code =>
      simp only [loop, hE] at hreq
      exact turn_sent_mkRequest lib apiKey h w req hreq
    | none =>
      simp only [loop, hE, sent_append, List.mem_append] at hreq
      rcases hreq with hreq | hreq
      · exact turn_sent_mkRequest lib apiKey h w req hreq
      · exact ih _ req hreq

/-- The `Authorization` header of a request made by `mkRequest`. -/
theorem mkRequest_authorization (apiKey j : String) :
    (mkRequest apiKey j).Header.Get "Authorization" = "Bearer " ++ apiKey := by
  simp [mkRequest, Header.Set, Header.Get, List.lookup]

/-- A line made of white space only trims to the empty string. -/
theorem TrimSpace_of_spaces (s : String) (hsp : ∀ c ∈ s.data, isSpace c = true) :
    TrimSpace s = "" := by
  have e : s.data.dropWhile isSpace = [] := List.dropWhile_eq_nil_iff.2 hsp
  unfold TrimSpace
  rw [e]
  rfl

/-- A string has at least as many bytes as characters. -/
theorem length_le_utf8ByteSize (s : String) : s.length ≤ s.utf8ByteSize := by
  obtain ⟨l⟩ := s
  induction l with
  | nil => simp
  | cons c cs ih =>
    have := c.utf8Size_pos
    simp [String.length] at ih ⊢
    omega

/-- Trimming leaves a run of one non-space character as it is. -/
theorem TrimSpace_replicate (n : Nat) (c : Char) (hc : isSpace c = false) :
    TrimSpace ⟨List.replicate n c⟩ = ⟨List.replicate n c⟩ := by
  have e : ∀ l : List Char, (∀ x ∈ l, x = c) → l.dropWhile isSpace = l := by
    intro l hl
    cases l with
    | nil => rfl
    | cons a t =>
      have : a = c := hl a (by simp)
      simp [List.dropWhile, this, hc]
  unfold TrimSpace
  simp only
  rw [e _ (fun x hx => (List.mem_replicate.1 hx).2), List.reverse_replicate,
    e _ (fun x hx => (List.mem_replicate.1 hx).2), List.reverse_replicate]

/-- Byte length of a run of one character. -/
theorem utf8ByteSize_replicate (n : Nat) (c : Char) :
    (String.mk (List.replicate n c)).utf8ByteSize = n * c.utf8Size := by
  induction n with
  | zero => simp; rfl
  | succ k ih =>
    simp [List.replicate_succ] at ih ⊢
    rw [ih]; ring

/-- The warning text starts with the warning sign. -/
theorem warningText_head (n : Nat) : (warningText n).data.head? = some '⚠' := rfl

/-- A string that starts with another character is not a warning text. -/
theorem ne_warningText (x : String) (c : Char) (n : Nat) (hx : x.data.head? = some c)
    (hc : c ≠ '⚠') : warningText n ≠ x := by
  intro e
  rw [← e, warningText_head] at hx
  exact hc (Option.some.inj hx).symm

/-- The send path never writes the length warning. -/
theorem send_no_warning (lib : Lib) (apiKey : String) (h : List ChatMessage) (w : World)
    (n : Nat) : Event.print (warningText n) ∉ (send lib apiKey h w).trace := by
  rcases send_cases lib apiKey h w with ⟨_, _, e⟩ | ⟨_, _, _, _, e⟩ | ⟨_, _, _, _, _, e⟩ |
    ⟨_, _, _, _, _, _, e⟩ | ⟨_, _, _, _, _, _, _, _, e⟩ | ⟨_, _, _, _, _, _, _, e⟩ |
    ⟨_, _, _, _, _, _, _, _, _, e⟩ <;> rw [e] <;> intro hmem <;>
    simp only [List.mem_cons, Event.print.injEq, List.mem_nil_iff, reduceCtorEq, false_or,
      or_false] at hmem
  · exact ne_warningText _ '❌' n (by rfl) (by decide) hmem
  · exact ne_warningText _ '❌' n (by rfl) (by decide) hmem
  · exact ne_warningText _ '❌' n (by rfl) (by decide) hmem
  · exact ne_warningText _ '❌' n (by rfl) (by decide) hmem
  · exact ne_warningText _ '❌' n (by rfl) (by decide) hmem
  · exact ne_warningText _ '❌' n (by rfl) (by decide) hmem
  · exact ne_warningText _ 'G' n (by rfl) (by decide) hmem

/-- A trimmed line of more than 3000 bytes is none of the three commands. -/
theorem chat_of_long (s : String) (hb : 3000 < s.utf8ByteSize) :
    s ≠ "exit" ∧ s ≠ "quit" ∧ s ≠ "clear" := by
  refine ⟨?_, ?_, ?_⟩ <;> intro e <;> rw [e] at hb <;> revert hb <;> decide

/-- The length warning of a trimmed line of more than 3000 bytes. -/
theorem lengthWarning_of_long (s : String) (hb : 3000 < s.utf8ByteSize) :
    lengthWarning s = [.print (warningText s.utf8ByteSize)] := by
  unfold lengthWarning maxInputChars
  rw [if_pos hb]

/-- The value of a decimal digit character. -/
theorem digitChar_value (k : Nat) (hk : k < 10) : (Nat.digitChar k).toNat - 48 = k := by
  interval_cases k <;> rfl

/-- Reading back the digits produced by `Nat.toDigitsCore` in base ten. -/
theorem foldl_toDigitsCore (fuel : Nat) : ∀ (n : Nat) (ds : List Char), n < fuel →
    (Nat.toDigitsCore 10 fuel n ds).foldl (fun a c => 10 * a + (c.toNat - 48)) 0 =
      ds.foldl (fun a c => 10 * a + (c.toNat - 48)) n := by
  induction fuel with
  | zero => intro n ds hn; omega
  | succ f ih =>
    intro n ds hn
    have hd := digitChar_value (n % 10) (Nat.mod_lt _ (by decide))
    unfold Nat.toDigitsCore
    by_cases h0 : n / 10 = 0
    · simp only [h0, if_true, List.foldl_cons, hd]
      congr 1; omega
    · simp only [h0, if_false]
      rw [ih (n / 10) _ (by omega)]
      simp only [List.foldl_cons, hd]
      congr 1; omega

/-- The decimal rendering of a number denotes that number. -/
theorem decimalValue_toString (n : Nat) : decimalValue (toString n).data = n := by
  show decimalValue (Nat.toDigits 10 n) = n
  unfold decimalValue Nat.toDigits
  rw [foldl_toDigitsCore (n + 1) n [] (by omega)]
  rfl

/-- Two warning texts are equal only when they report the same number. -/
theorem warningText_injective (n m : Nat) (e : warningText n = warningText m) : n = m := by
  have e2 := congrArg String.data e
  simp only [warningText, String.data_append, List.append_assoc] at e2
  have e3 := List.append_cancel_left e2
  have e4 := List.append_cancel_right e3
  rw [← decimalValue_toString n, ← decimalValue_toString m, e4]

/-- A turn writes the warning reporting `n` exactly when the trimmed line has
more than 3000 bytes and `n` is that number of bytes. -/
theorem warning_mem_turn (lib : Lib) (apiKey : String) (h : List ChatMessage) (w : World)
    (n : Nat) :
    Event.print (warningText n) ∈ (turn lib apiKey h w).trace ↔
      3000 < (TrimSpace w.line.data).utf8ByteSize ∧ n = (TrimSpace w.line.data).utf8ByteSize := by
  constructor
  · intro hmem
    by_cases hx : TrimSpace w.line.data = "exit" ∨ TrimSpace w.line.data = "quit"
    · rw [turn_of_exit lib apiKey h w hx] at hmem
      simp only [List.mem_cons, Event.print.injEq, List.mem_nil_iff, or_false] at hmem
      rcases hmem with e | e
      · exact absurd e (ne_warningText _ '>' n (by rfl) (by decide))
      · exact absurd e (ne_warningText _ '👋' n (by rfl) (by decide))
    · by_cases hc : TrimSpace w.line.data = "clear"
      · rw [turn_of_clear lib apiKey h w hc] at hmem
        simp only [List.mem_cons, Event.print.injEq, List.mem_nil_iff, or_false] at hmem
        rcases hmem with e | e
        · exact absurd e (ne_warningText _ '>' n (by rfl) (by decide))
        · exact absurd e (ne_warningText _ '🧹' n (by rfl) (by decide))
      · rw [turn_of_chat lib apiKey h w (fun e => hx (Or.inl e)) (fun e => hx (Or.inr e)) hc]
          at hmem
        simp only [List.mem_append, List.mem_singleton, Event.print.injEq] at hmem
        rcases hmem with (e | hw) | hsend
        · exact absurd e (ne_warningText _ '>' n (by rfl) (by decide))
        · by_cases hb : 3000 < (TrimSpace w.line.data).utf8ByteSize
          · rw [lengthWarning_of_long _ hb] at hw
            simp only [List.mem_singleton, Event.print.injEq] at hw
            exact ⟨hb, warningText_injective _ _ hw⟩
          · unfold lengthWarning maxInputChars at hw
            rw [if_neg hb] at hw
            simp at hw
        · exact absurd hsend (send_no_warning lib apiKey _ w n)
  · rintro ⟨hb, rfl⟩
    obtain ⟨h1, h2, h3⟩ := chat_of_long _ hb
    rw [turn_of_chat lib apiKey h w h1 h2 h3, lengthWarning_of_long _ hb]
    simp

/-- The output of a turn whose trimmed line has more than 3000 bytes starts
with the prompt and the warning reporting that number of bytes. -/
theorem stdout_of_long (lib : Lib) (apiKey : String) (h : List ChatMessage) (w : World)
    (hb : 3000 < (TrimSpace w.line.data).utf8ByteSize) :
    [">> ", warningText (TrimSpace w.line.data).utf8ByteSize] <+:
      stdout (turn lib apiKey h w).trace := by
  obtain ⟨h1, h2, h3⟩ := chat_of_long _ hb
  rw [turn_of_chat lib apiKey h w h1 h2 h3, lengthWarning_of_long _ hb]
  show _ <+: stdout ([.print ">> ", .print _] ++ _)
  rw [stdout_append]
  exact List.prefix_append _ _

/-! ## The claims -/

/-- C1. History invariant: whatever the key line, the input lines and the API
outcomes, a run of `main` either ends at startup with status 1 before any
History exists, or its History is non-empty with the startup system message
at index 0; and no single turn (chat, clear, exit, quit, with any outcome)
removes or changes the first element of a non-empty History. -/
theorem history_head_invariant (lib : Lib) (keyRead : ReadResult) (ws : List World) :
    (((main lib keyRead ws).history = none ∧ (main lib keyRead ws).exit = some 1) ∨
      ∃ t, (main lib keyRead ws).history =
        some (⟨"system", "You are a helpful assistant."⟩ :: t)) ∧
    (∀ (apiKey : String) (m : ChatMessage) (t : List ChatMessage) (w : World),
      ∃ t2, (turn lib apiKey (m :: t) w).history = m :: t2) := by
  refine ⟨?_, fun apiKey m t w => turn_history_cons lib apiKey m t w⟩
  unfold main
  cases keyRead.err with
  | some err => exact Or.inl ⟨rfl, rfl⟩
  | none =>
    by_cases hk : TrimSpace keyRead.data = ""
    · left; simp [hk]
    · right
      obtain ⟨t, ht⟩ := loop_history_cons lib (TrimSpace keyRead.data) ws systemPrompt []
      exact ⟨t, by simp only [if_neg hk, ht]; rfl⟩

/-- C2. For every History of length at least 1, a turn whose trimmed input is
exactly `clear` leaves the one-element History holding the old element 0,
prints only the prompt and the confirmation (no request is built or sent), and
does not end the loop: the run goes on with the next turn from that History. -/
theorem clear_resets_history (lib : Lib) (apiKey : String) (h : List ChatMessage)
    (w : World) (ws : List World) (hn : 0 < h.length)
    (hc : TrimSpace w.line.data = "clear") :
    turn lib apiKey h w =
      ⟨[h.get ⟨0, hn⟩], [.print ">> ", .print "🧹 Conversation history cleared.\n"], none⟩ ∧
    sent (turn lib apiKey h w).trace = [] ∧
    built (turn lib apiKey h w).trace = [] ∧
    loop lib apiKey h (w :: ws) =
      ⟨(loop lib apiKey [h.get ⟨0, hn⟩] ws).history,
        [.print ">> ", .print "🧹 Conversation history cleared.\n"] ++
          (loop lib apiKey [h.get ⟨0, hn⟩] ws).trace,
        (loop lib apiKey [h.get ⟨0, hn⟩] ws).exit⟩ := by
  have ht : h.take 1 = [h.get ⟨0, hn⟩] := by
    cases h with
    | nil => simp at hn
    | cons a t => rfl
  have e := turn_of_clear lib apiKey h w hc
  rw [ht] at e
  refine ⟨e, by rw [e]; rfl, by rw [e]; rfl, ?_⟩
  simp [loop, e]

/-- C2 on the scenario of the specification: a History of five elements
becomes the one-element list holding the initial system message. -/
theorem clear_resets_history_witness :
    turn (okLib (.error "unused")) "sk-test"
        [systemPrompt, ⟨"user", "a"⟩, ⟨"assistant", "b"⟩, ⟨"user", "c"⟩, ⟨"assistant", "d"⟩]
        (world "clear\n" (.error "unused")) =
      ⟨[systemPrompt], [.print ">> ", .print "🧹 Conversation history cleared.\n"], none⟩ :=
  (clear_resets_history (okLib (.error "unused")) "sk-test"
    [systemPrompt, ⟨"user", "a"⟩, ⟨"assistant", "b"⟩, ⟨"user", "c"⟩, ⟨"assistant", "d"⟩]
    (world "clear\n" (.error "unused")) [] (by decide) (by decide)).1

/-- C3. A turn whose trimmed line is exactly `exit` or `quit` prints the
farewell and returns from `main` (status 0) with History unchanged and with no
request built or sent, whatever turns would follow; and a turn ends the loop
only for those two trimmed lines, so `Exit` and `exit now` do not end it. -/
theorem exit_quit_terminate (lib : Lib) (apiKey : String) (h : List ChatMessage)
    (w : World) (ws : List World) :
    ((TrimSpace w.line.data = "exit" ∨ TrimSpace w.line.data = "quit") →
      turn lib apiKey h w = ⟨h, [.print ">> ", .print "👋 Goodbye!\n"], some 0⟩ ∧
      sent (turn lib apiKey h w).trace = [] ∧
      built (turn lib apiKey h w).trace = [] ∧
      loop lib apiKey h (w :: ws) = ⟨h, [.print ">> ", .print "👋 Goodbye!\n"], some 0⟩) ∧
    ((turn lib apiKey h w).exit ≠ none ↔
      (TrimSpace w.line.data = "exit" ∨ TrimSpace w.line.data = "quit")) ∧
    (∀ a, (turn lib apiKey h (world "Exit\n" a)).exit = none) ∧
    (∀ a, (turn lib apiKey h (world "exit now\n" a)).exit = none) := by
  have key : ∀ v : World, (turn lib apiKey h v).exit ≠ none ↔
      (TrimSpace v.line.data = "exit" ∨ TrimSpace v.line.data = "quit") := by
    intro v
    constructor
    · intro hne
      by_contra hx
      apply hne
      by_cases hc : TrimSpace v.line.data = "clear"
      · rw [turn_of_clear lib apiKey h v hc]
      · rw [turn_of_chat lib apiKey h v (fun e => hx (Or.inl e)) (fun e => hx (Or.inr e)) hc]
        exact send_exit lib apiKey _ v
    · intro hx
      rw [turn_of_exit lib apiKey h v hx]
      simp
  refine ⟨fun hx => ?_, key w, fun a => ?_, fun a => ?_⟩
  · have e := turn_of_exit lib apiKey h w hx
    refine ⟨e, by rw [e]; rfl, by rw [e]; rfl, ?_⟩
    simp [loop, e]
  · by_contra hne
    have hd : ¬ (TrimSpace "Exit\n" = "exit" ∨ TrimSpace "Exit\n" = "quit") := by decide
    exact hd ((key (world "Exit\n" a)).1 hne)
  · by_contra hne
    have hd : ¬ (TrimSpace "exit now\n" = "exit" ∨ TrimSpace "exit now\n" = "quit") := by
      decide
    exact hd ((key (world "exit now\n" a)).1 hne)

/-- C3 on concrete lines: `quit` surrounded by white space ends a run that
started with key `sk-test`, with status 0 and the History untouched. -/
theorem exit_quit_terminate_witness :
    (turn (okLib (.error "unused")) "sk-test" [systemPrompt, ⟨"user", "a"⟩]
        (world "  quit \r\n" (.error "unused")) =
      ⟨[systemPrompt, ⟨"user", "a"⟩], [.print ">> ", .print "👋 Goodbye!\n"], some 0⟩) ∧
    (main (okLib (.error "unused")) ⟨"sk-test\n", none⟩
        [world "exit\n" (.error "unused"), world "hello\n" (.error "unused")]).exit =
      some 0 :=
  ⟨((exit_quit_terminate (okLib (.error "unused")) "sk-test" [systemPrompt, ⟨"user", "a"⟩]
      (world "  quit \r\n" (.error "unused")) []).1 (Or.inr (by decide))).1,
    by decide⟩

/-- C4. For every History `h` and every trimmed input other than `exit`, `quit`
and `clear` (the empty line included), the turn builds exactly one
`ChatRequest`, with model `gpt-3.5-turbo` and messages `h` followed by the user
message; the History after the turn starts with `h` followed by that user
message whatever happens on the send path; at most one HTTP request is handed
to the transport, exactly one when serialization and request construction
succeed, and its body is the serialization of that `ChatRequest`. -/
theorem chat_turn_request (lib : Lib) (apiKey : String) (h : List ChatMessage)
    (w : World) (h1 : TrimSpace w.line.data ≠ "exit")
    (h2 : TrimSpace w.line.data ≠ "quit") (h3 : TrimSpace w.line.data ≠ "clear") :
    built (turn lib apiKey h w).trace =
      [⟨"gpt-3.5-turbo", h ++ [⟨"user", TrimSpace w.line.data⟩]⟩] ∧
    (h ++ [⟨"user", TrimSpace w.line.data⟩]) <+: (turn lib apiKey h w).history ∧
    (sent (turn lib apiKey h w).trace).length ≤ 1 ∧
    (∀ req ∈ sent (turn lib apiKey h w).trace,
      lib.Marshal ⟨"gpt-3.5-turbo", h ++ [⟨"user", TrimSpace w.line.data⟩]⟩ = .ok req.Body) ∧
    (∀ jsonData,
      lib.Marshal ⟨"gpt-3.5-turbo", h ++ [⟨"user", TrimSpace w.line.data⟩]⟩ = .ok jsonData →
      lib.NewRequest "POST" apiURL = none →
      sent (turn lib apiKey h w).trace =
        [⟨"POST", apiURL, [("Authorization", ["Bearer " ++ apiKey]),
          ("Content-Type", ["application/json"])], jsonData⟩]) := by
  rw [turn_chat_built lib apiKey h w h1 h2 h3, turn_chat_sent lib apiKey h w h1 h2 h3]
  refine ⟨send_built lib apiKey _ w, ?_, ?_, ?_, ?_⟩
  · rw [turn_of_chat lib apiKey h w h1 h2 h3]
    rcases send_history lib apiKey (h ++ [⟨"user", TrimSpace w.line.data⟩]) w with e | ⟨x, e⟩
    · rw [e]
    · rw [e]; exact List.prefix_append _ _
  · rcases send_sent lib apiKey (h ++ [⟨"user", TrimSpace w.line.data⟩]) w with
      ⟨e, _⟩ | ⟨j, _, _, e⟩ <;> rw [e] <;> simp
  · intro req hreq
    rcases send_sent lib apiKey (h ++ [⟨"user", TrimSpace w.line.data⟩]) w with
      ⟨e, _⟩ | ⟨j, hm, _, e⟩
    · rw [e] at hreq; simp at hreq
    · rw [e] at hreq
      simp only [List.mem_singleton] at hreq
      rw [hreq, hm]; rfl
  · intro jsonData hm hn
    rcases send_sent lib apiKey (h ++ [⟨"user", TrimSpace w.line.data⟩]) w with
      ⟨_, ⟨x, hx⟩ | ⟨x, hx⟩⟩ | ⟨j, hj, _, e⟩
    · rw [hm] at hx; cases hx
    · rw [hn] at hx; cases hx
    · rw [hm] at hj
      cases hj
      rw [e]
      simp [mkRequest, Header.Set]

/-- C4 on the empty line after key `sk-test`: the request carries the system
message followed by the empty user message. -/
theorem chat_turn_request_witness :
    built (turn (okLib (.error "unused")) "sk-test" [systemPrompt]
        (world "\n" (.error "no route"))).trace =
      [⟨"gpt-3.5-turbo", [systemPrompt, ⟨"user", ""⟩]⟩] ∧
    sent (turn (okLib (.error "unused")) "sk-test" [systemPrompt]
        (world "\n" (.error "no route"))).trace =
      [⟨"POST", apiURL, [("Authorization", ["Bearer sk-test"]),
        ("Content-Type", ["application/json"])], "body"⟩] :=
  ⟨(chat_turn_request (okLib (.error "unused")) "sk-test" [systemPrompt]
      (world "\n" (.error "no route")) (by decide) (by decide) (by decide)).1,
    (chat_turn_request (okLib (.error "unused")) "sk-test" [systemPrompt]
      (world "\n" (.error "no route")) (by decide) (by decide) (by decide)).2.2.2.2
      "body" rfl rfl⟩

/-- C5. For every History `h`, chat input `s` and 200 response whose decoded
choice list is non-empty, the turn leaves History `h ++ [user: s] ++ [m]` where
`m` has the role and content of the first choice as reported; the only lines
written after the prompt (and the length warning, if any) are `GPT: ` followed
by that content; later choices play no part. -/
theorem reply_appended (lib : Lib) (apiKey : String) (h : List ChatMessage) (w : World)
    (s jsonData : String) (resp : Response) (c : Choice) (cs : List Choice)
    (hs : TrimSpace w.line.data = s)
    (h1 : s ≠ "exit") (h2 : s ≠ "quit") (h3 : s ≠ "clear")
    (hm : lib.Marshal ⟨"gpt-3.5-turbo", h ++ [⟨"user", s⟩]⟩ = .ok jsonData)
    (hn : lib.NewRequest "POST" apiURL = none)
    (hd : w.Do (mkRequest apiKey jsonData) = .ok resp)
    (h200 : resp.StatusCode = 200)
    (hu : lib.Unmarshal resp.Body = .ok ⟨c :: cs⟩) :
    turn lib apiKey h w =
      ⟨h ++ [⟨"user", s⟩] ++ [⟨c.Message.Role, c.Message.Content⟩],
        [.print ">> "] ++ lengthWarning s ++
          [.marshal ⟨"gpt-3.5-turbo", h ++ [⟨"user", s⟩]⟩, .httpDo (mkRequest apiKey jsonData),
            .print ("GPT: " ++ c.Message.Content ++ "\n")],
        none⟩ ∧
    stdout (turn lib apiKey h w).trace =
      [">> "] ++ stdout (lengthWarning s) ++ ["GPT: " ++ c.Message.Content ++ "\n"] := by
  subst hs
  have e : send lib apiKey (h ++ [⟨"user", TrimSpace w.line.data⟩]) w =
      ⟨h ++ [⟨"user", TrimSpace w.line.data⟩] ++ [⟨c.Message.Role, c.Message.Content⟩],
        [.marshal ⟨"gpt-3.5-turbo", h ++ [⟨"user", TrimSpace w.line.data⟩]⟩,
          .httpDo (mkRequest apiKey jsonData),
          .print ("GPT: " ++ c.Message.Content ++ "\n")], none⟩ := by
    simp [send, hm, hn, hd, h200, hu]
  have t := turn_of_chat lib apiKey h w h1 h2 h3
  rw [e] at t
  refine ⟨t, ?_⟩
  rw [t]
  show stdout ([.print ">> "] ++ lengthWarning (TrimSpace w.line.data) ++ _) = _
  rw [stdout_append, stdout_append]
  rfl

/-- C5 on the scenario of the specification: key `sk-test`, input `hello`, one
choice `assistant`, `hi there`. -/
theorem reply_appended_witness :
    turn scenarioLib "sk-test" [systemPrompt] (world "hello\n" (.ok ⟨"200 OK", 200, helloBody⟩)) =
      ⟨[systemPrompt, ⟨"user", "hello"⟩, ⟨"assistant", "hi there"⟩],
        [.print ">> ", .marshal ⟨"gpt-3.5-turbo", [systemPrompt, ⟨"user", "hello"⟩]⟩,
          .httpDo (mkRequest "sk-test" "body"), .print "GPT: hi there\n"],
        none⟩ ∧
    (main scenarioLib ⟨"sk-test\n", none⟩
        [world "hello\n" (.ok ⟨"200 OK", 200, helloBody⟩)]).history =
      some [systemPrompt, ⟨"user", "hello"⟩, ⟨"assistant", "hi there"⟩] :=
  ⟨(reply_appended scenarioLib "sk-test" [systemPrompt]
      (world "hello\n" (.ok ⟨"200 OK", 200, helloBody⟩)) "hello" "body" ⟨"200 OK", 200, helloBody⟩
      ⟨⟨"assistant", "hi there"⟩, "stop"⟩ [] (by decide) (by decide) (by decide) (by decide)
      rfl rfl rfl rfl rfl).1,
    by decide⟩

/-- C6. For every History `h` and chat input `s`, each recoverable failure of
the turn (serialization, request construction, transport, non-200 status,
response decoding, empty choice list) leaves History exactly `h ++ [user: s]`,
writes an error line as the last output of the turn, and does not end the
loop: no chat turn ever returns from `main`, and the run goes on with the next
turn from the History the turn left. -/
theorem failed_turn_keeps_user_message (lib : Lib) (apiKey : String)
    (h : List ChatMessage) (w : World) (ws : List World) (s : String)
    (hs : TrimSpace w.line.data = s)
    (h1 : s ≠ "exit") (h2 : s ≠ "quit") (h3 : s ≠ "clear") :
    (∀ err, lib.Marshal ⟨"gpt-3.5-turbo", h ++ [⟨"user", s⟩]⟩ = .error err →
      turn lib apiKey h w = ⟨h ++ [⟨"user", s⟩],
        [.print ">> "] ++ lengthWarning s ++
          [.marshal ⟨"gpt-3.5-turbo", h ++ [⟨"user", s⟩]⟩,
            .print ("❌ Failed to marshal request: " ++ err ++ "\n")], none⟩) ∧
    (∀ j err, lib.Marshal ⟨"gpt-3.5-turbo", h ++ [⟨"user", s⟩]⟩ = .ok j →
      lib.NewRequest "POST" apiURL = some err →
      turn lib apiKey h w = ⟨h ++ [⟨"user", s⟩],
        [.print ">> "] ++ lengthWarning s ++
          [.marshal ⟨"gpt-3.5-turbo", h ++ [⟨"user", s⟩]⟩,
            .print ("❌ Failed to create request: " ++ err ++ "\n")], none⟩) ∧
    (∀ j err, lib.Marshal ⟨"gpt-3.5-turbo", h ++ [⟨"user", s⟩]⟩ = .ok j →
      lib.NewRequest "POST" apiURL = none → w.Do (mkRequest apiKey j) = .error err →
      turn lib apiKey h w = ⟨h ++ [⟨"user", s⟩],
        [.print ">> "] ++ lengthWarning s ++
          [.marshal ⟨"gpt-3.5-turbo", h ++ [⟨"user", s⟩]⟩, .httpDo (mkRequest apiKey j),
            .print ("❌ Request failed: " ++ err ++ "\n")], none⟩) ∧
    (∀ j resp, lib.Marshal ⟨"gpt-3.5-turbo", h ++ [⟨"user", s⟩]⟩ = .ok j →
      lib.NewRequest "POST" apiURL = none → w.Do (mkRequest apiKey j) = .ok resp →
      resp.StatusCode ≠ 200 →
      turn lib apiKey h w = ⟨h ++ [⟨"user", s⟩],
        [.print ">> "] ++ lengthWarning s ++
          [.marshal ⟨"gpt-3.5-turbo", h ++ [⟨"user", s⟩]⟩, .httpDo (mkRequest apiKey j),
            .print ("❌ API error: " ++ resp.Status ++ "\n" ++ resp.Body ++ "\n")], none⟩) ∧
    (∀ j resp err, lib.Marshal ⟨"gpt-3.5-turbo", h ++ [⟨"user", s⟩]⟩ = .ok j →
      lib.NewRequest "POST" apiURL = none → w.Do (mkRequest apiKey j) = .ok resp →
      resp.StatusCode = 200 → lib.Unmarshal resp.Body = .error err →
      turn lib apiKey h w = ⟨h ++ [⟨"user", s⟩],
        [.print ">> "] ++ lengthWarning s ++
          [.marshal ⟨"gpt-3.5-turbo", h ++ [⟨"user", s⟩]⟩, .httpDo (mkRequest apiKey j),
            .print ("❌ Failed to decode response: " ++ err ++ "\n")], none⟩) ∧
    (∀ j resp, lib.Marshal ⟨"gpt-3.5-turbo", h ++ [⟨"user", s⟩]⟩ = .ok j →
      lib.NewRequest "POST" apiURL = none → w.Do (mkRequest apiKey j) = .ok resp →
      resp.StatusCode = 200 → lib.Unmarshal resp.Body = .ok ⟨[]⟩ →
      turn lib apiKey h w = ⟨h ++ [⟨"user", s⟩],
        [.print ">> "] ++ lengthWarning s ++
          [.marshal ⟨"gpt-3.5-turbo", h ++ [⟨"user", s⟩]⟩, .httpDo (mkRequest apiKey j),
            .print "❌ No choices returned from API.\n"], none⟩) ∧
    (turn lib apiKey h w).exit = none ∧
    loop lib apiKey h (w :: ws) =
      ⟨(loop lib apiKey (turn lib apiKey h w).history ws).history,
        (turn lib apiKey h w).trace ++ (loop lib apiKey (turn lib apiKey h w).history ws).trace,
        (loop lib apiKey (turn lib apiKey h w).history ws).exit⟩ := by
  subst hs
  have t := turn_of_chat lib apiKey h w h1 h2 h3
  have hexit : (turn lib apiKey h w).exit = none := by
    rw [t]; exact send_exit lib apiKey _ w
  refine ⟨?_, ?_, ?_, ?_, ?_, ?_, hexit, ?_⟩
  · intro err hm
    rw [t]; simp [send, hm]
  · intro j err hm hn
    rw [t]; simp [send, hm, hn]
  · intro j err hm hn hd
    rw [t]; simp [send, hm, hn, hd]
  · intro j resp hm hn hd h200
    rw [t]; simp [send, hm, hn, hd, h200]
  · intro j resp err hm hn hd h200 hu
    rw [t]; simp [send, hm, hn, hd, h200, hu]
  · intro j resp hm hn hd h200 hu
    rw [t]; simp [send, hm, hn, hd, h200, hu]
  · simp [loop, hexit]

/-- C6 on the six failures after key `sk-test` and input `hello`: each leaves
`[system, user: hello]`, an error line, and a loop that goes on. -/
theorem failed_turn_keeps_user_message_witness :
    turn (failLib (.error "unsupported value") none) "sk-test" [systemPrompt]
        (world "hello\n" (.error "unused")) =
      ⟨[systemPrompt, ⟨"user", "hello"⟩],
        [.print ">> ", .marshal ⟨"gpt-3.5-turbo", [systemPrompt, ⟨"user", "hello"⟩]⟩,
          .print "❌ Failed to marshal request: unsupported value\n"], none⟩ ∧
    turn (failLib (.ok "body") (some "invalid method")) "sk-test" [systemPrompt]
        (world "hello\n" (.error "unused")) =
      ⟨[systemPrompt, ⟨"user", "hello"⟩],
        [.print ">> ", .marshal ⟨"gpt-3.5-turbo", [systemPrompt, ⟨"user", "hello"⟩]⟩,
          .print "❌ Failed to create request: invalid method\n"], none⟩ ∧
    turn scenarioLib "sk-test" [systemPrompt] (world "hello\n" (.error "no route to host")) =
      ⟨[systemPrompt, ⟨"user", "hello"⟩],
        [.print ">> ", .marshal ⟨"gpt-3.5-turbo", [systemPrompt, ⟨"user", "hello"⟩]⟩,
          .httpDo (mkRequest "sk-test" "body"),
          .print "❌ Request failed: no route to host\n"], none⟩ ∧
    turn scenarioLib "sk-test" [systemPrompt]
        (world "hello\n" (.ok ⟨"401 Unauthorized", 401, "bad key"⟩)) =
      ⟨[systemPrompt, ⟨"user", "hello"⟩],
        [.print ">> ", .marshal ⟨"gpt-3.5-turbo", [systemPrompt, ⟨"user", "hello"⟩]⟩,
          .httpDo (mkRequest "sk-test" "body"),
          .print "❌ API error: 401 Unauthorized\nbad key\n"], none⟩ ∧
    turn scenarioLib "sk-test" [systemPrompt]
        (world "hello\n" (.ok ⟨"200 OK", 200, "<html>"⟩)) =
      ⟨[systemPrompt, ⟨"user", "hello"⟩],
        [.print ">> ", .marshal ⟨"gpt-3.5-turbo", [systemPrompt, ⟨"user", "hello"⟩]⟩,
          .httpDo (mkRequest "sk-test" "body"),
          .print "❌ Failed to decode response: invalid character\n"], none⟩ ∧
    turn scenarioLib "sk-test" [systemPrompt]
        (world "hello\n" (.ok ⟨"200 OK", 200, "\x7b\"choices\":[]\x7d"⟩)) =
      ⟨[systemPrompt, ⟨"user", "hello"⟩],
        [.print ">> ", .marshal ⟨"gpt-3.5-turbo", [systemPrompt, ⟨"user", "hello"⟩]⟩,
          .httpDo (mkRequest "sk-test" "body"),
          .print "❌ No choices returned from API.\n"], none⟩ :=
  ⟨(failed_turn_keeps_user_message (failLib (.error "unsupported value") none) "sk-test"
      [systemPrompt] (world "hello\n" (.error "unused")) [] "hello"
      (by decide) (by decide) (by decide) (by decide)).1 "unsupported value" rfl,
    (failed_turn_keeps_user_message (failLib (.ok "body") (some "invalid method")) "sk-test"
      [systemPrompt] (world "hello\n" (.error "unused")) [] "hello"
      (by decide) (by decide) (by decide) (by decide)).2.1 "body" "invalid method" rfl rfl,
    (failed_turn_keeps_user_message scenarioLib "sk-test" [systemPrompt]
      (world "hello\n" (.error "no route to host")) [] "hello"
      (by decide) (by decide) (by decide) (by decide)).2.2.1
      "body" "no route to host" rfl rfl rfl,
    (failed_turn_keeps_user_message scenarioLib "sk-test" [systemPrompt]
      (world "hello\n" (.ok ⟨"401 Unauthorized", 401, "bad key"⟩)) [] "hello"
      (by decide) (by decide) (by decide) (by decide)).2.2.2.1
      "body" ⟨"401 Unauthorized", 401, "bad key"⟩ rfl rfl rfl (by decide),
    (failed_turn_keeps_user_message scenarioLib "sk-test" [systemPrompt]
      (world "hello\n" (.ok ⟨"200 OK", 200, "<html>"⟩)) [] "hello"
      (by decide) (by decide) (by decide) (by decide)).2.2.2.2.1
      "body" ⟨"200 OK", 200, "<html>"⟩ "invalid character" rfl rfl rfl rfl rfl,
    (failed_turn_keeps_user_message scenarioLib "sk-test" [systemPrompt]
      (world "hello\n" (.ok ⟨"200 OK", 200, "\x7b\"choices\":[]\x7d"⟩)) [] "hello"
      (by decide) (by decide) (by decide) (by decide)).2.2.2.2.2.1
      "body" ⟨"200 OK", 200, "\x7b\"choices\":[]\x7d"⟩ rfl rfl rfl rfl rfl⟩

/-- C7. Startup. If the first line cannot be read, or is empty after trimming
(in particular if it holds white space only), `main` writes an error and ends
with status 1 before any prompt, request or History exists. Otherwise it
enters the loop with the History holding only the system message and with the
trimmed line as key, and every request of the run carries the header
`Authorization: Bearer <that key>`. -/
theorem startup_key (lib : Lib) (keyRead : ReadResult) (ws : List World) :
    (∀ err, keyRead.err = some err →
      main lib keyRead ws = ⟨none, [.print "🔑 Enter your OpenAI API key: ",
        .print ("❌ Failed to read API key: " ++ err ++ "\n")], some 1⟩) ∧
    (keyRead.err = none → TrimSpace keyRead.data = "" →
      main lib keyRead ws = ⟨none, [.print "🔑 Enter your OpenAI API key: ",
        .print "❌ API key is required.\n"], some 1⟩) ∧
    ((∀ c ∈ keyRead.data.data, isSpace c = true) → TrimSpace keyRead.data = "") ∧
    (keyRead.err = none → TrimSpace keyRead.data ≠ "" →
      main lib keyRead ws =
        ⟨some (loop lib (TrimSpace keyRead.data)
            [⟨"system", "You are a helpful assistant."⟩] ws).history,
          [.print "🔑 Enter your OpenAI API key: ",
            .print "🤖 ChatGPT REPL (type 'exit' to quit, 'clear' to reset)\n"] ++
            (loop lib (TrimSpace keyRead.data)
              [⟨"system", "You are a helpful assistant."⟩] ws).trace,
          (loop lib (TrimSpace keyRead.data)
            [⟨"system", "You are a helpful assistant."⟩] ws).exit⟩ ∧
      ∀ req ∈ sent (main lib keyRead ws).trace,
        req.Header.Get "Authorization" = "Bearer " ++ TrimSpace keyRead.data) := by
  refine ⟨fun err he => ?_, fun he hk => ?_, TrimSpace_of_spaces keyRead.data,
    fun he hk => ?_⟩
  · simp [main, he]
  · simp [main, he, hk]
  · have e : main lib keyRead ws =
        ⟨some (loop lib (TrimSpace keyRead.data) [systemPrompt] ws).history,
          [.print "🔑 Enter your OpenAI API key: ",
            .print "🤖 ChatGPT REPL (type 'exit' to quit, 'clear' to reset)\n"] ++
            (loop lib (TrimSpace keyRead.data) [systemPrompt] ws).trace,
          (loop lib (TrimSpace keyRead.data) [systemPrompt] ws).exit⟩ := by
      simp [main, he, hk]
    refine ⟨e, fun req hreq => ?_⟩
    rw [e] at hreq
    simp only [sent_append, List.mem_append] at hreq
    rcases hreq with hreq | hreq
    · simp [sent] at hreq
    · obtain ⟨j, hj⟩ := loop_sent_mkRequest lib _ ws _ req hreq
      rw [hj]
      exact mkRequest_authorization _ j

/-- C7 on concrete key lines: end of input, a line of blanks, and the key
`sk-test` typed with surrounding blanks. -/
theorem startup_key_witness :
    main scenarioLib ⟨"", some "EOF"⟩ [world "hello\n" (.error "unused")] =
      ⟨none, [.print "🔑 Enter your OpenAI API key: ",
        .print "❌ Failed to read API key: EOF\n"], some 1⟩ ∧
    main scenarioLib ⟨" \t \r\n", none⟩ [world "hello\n" (.error "unused")] =
      ⟨none, [.print "🔑 Enter your OpenAI API key: ",
        .print "❌ API key is required.\n"], some 1⟩ ∧
    sent (main scenarioLib ⟨"  sk-test \n", none⟩
        [world "hello\n" (.ok ⟨"200 OK", 200, helloBody⟩), world "more\n" (.error "reset")]).trace =
      [⟨"POST", apiURL, [("Authorization", ["Bearer sk-test"]),
          ("Content-Type", ["application/json"])], "body"⟩,
        ⟨"POST", apiURL, [("Authorization", ["Bearer sk-test"]),
          ("Content-Type", ["application/json"])], "body"⟩] ∧
    ∀ req ∈ sent (main scenarioLib ⟨"  sk-test \n", none⟩
        [world "hello\n" (.ok ⟨"200 OK", 200, helloBody⟩), world "more\n" (.error "reset")]).trace,
      req.Header.Get "Authorization" = "Bearer " ++ TrimSpace "  sk-test \n" :=
  ⟨(startup_key scenarioLib ⟨"", some "EOF"⟩ [world "hello\n" (.error "unused")]).1 "EOF" rfl,
    (startup_key scenarioLib ⟨" \t \r\n", none⟩ [world "hello\n" (.error "unused")]).2.1 rfl
      (by decide),
    by decide,
    ((startup_key scenarioLib ⟨"  sk-test \n", none⟩
      [world "hello\n" (.ok ⟨"200 OK", 200, helloBody⟩), world "more\n" (.error "reset")]).2.2.2
      rfl (by decide)).2⟩

/-- C8, as the code behaves: the error of the per-turn line read is discarded,
so a turn whose read fails is the same turn as one that read the same data
without error. At end of input the data is empty, the turn does not end the
loop, and it builds a request holding an empty user message; a run that
reaches end of input after the key keeps sending one request per turn. -/
theorem read_failure_does_not_end_loop (lib : Lib) (apiKey : String)
    (h : List ChatMessage) (d e : String) (a : Request → Except String Response) :
    turn lib apiKey h ⟨⟨d, some e⟩, a⟩ = turn lib apiKey h ⟨⟨d, none⟩, a⟩ ∧
    (turn lib apiKey h ⟨⟨"", some "EOF"⟩, a⟩).exit = none ∧
    built (turn lib apiKey h ⟨⟨"", some "EOF"⟩, a⟩).trace =
      [⟨"gpt-3.5-turbo", h ++ [⟨"user", ""⟩]⟩] ∧
    (main scenarioLib ⟨"sk-test\n", none⟩
      [⟨⟨"", some "EOF"⟩, fun _ => .error "connection refused"⟩,
        ⟨⟨"", some "EOF"⟩, fun _ => .error "connection refused"⟩,
        ⟨⟨"", some "EOF"⟩, fun _ => .error "connection refused"⟩]).exit = none ∧
    (main scenarioLib ⟨"sk-test\n", none⟩
      [⟨⟨"", some "EOF"⟩, fun _ => .error "connection refused"⟩,
        ⟨⟨"", some "EOF"⟩, fun _ => .error "connection refused"⟩,
        ⟨⟨"", some "EOF"⟩, fun _ => .error "connection refused"⟩]).history =
      some [systemPrompt, ⟨"user", ""⟩, ⟨"user", ""⟩, ⟨"user", ""⟩] ∧
    sent (main scenarioLib ⟨"sk-test\n", none⟩
      [⟨⟨"", some "EOF"⟩, fun _ => .error "connection refused"⟩,
        ⟨⟨"", some "EOF"⟩, fun _ => .error "connection refused"⟩,
        ⟨⟨"", some "EOF"⟩, fun _ => .error "connection refused"⟩]).trace =
      [mkRequest "sk-test" "body", mkRequest "sk-test" "body", mkRequest "sk-test" "body"] := by
  have t : TrimSpace "" = "" := by decide
  have c := turn_of_chat lib apiKey h ⟨⟨"", some "EOF"⟩, a⟩
    (by rw [t]; decide) (by rw [t]; decide) (by rw [t]; decide)
  refine ⟨rfl, ?_, ?_, by decide, by decide, by decide⟩
  · rw [c]; exact send_exit lib apiKey _ _
  · rw [turn_chat_built lib apiKey h ⟨⟨"", some "EOF"⟩, a⟩
      (by rw [t]; decide) (by rw [t]; decide) (by rw [t]; decide)]
    exact send_built lib apiKey _ _

/-- C9. For every chat input of more than 3000 characters the turn writes the
prompt and the warning and is not rejected: it builds the `ChatRequest` whose
last message is the user message with the complete trimmed input, keeps that
message in History, does not end the loop, and when serialization and request
construction succeed it hands exactly one POST with that serialized body to
the transport. On a 200 answer with a non-empty choice list the reply is
appended and printed as for any other chat input; in general the rest of the
turn is the send path on the extended History. -/
theorem long_input_still_sent (lib : Lib) (apiKey : String) (h : List ChatMessage)
    (w : World) (s : String) (hs : TrimSpace w.line.data = s) (hlen : 3000 < s.length) :
    [">> ", "⚠️ Warning: Input is very long (" ++ toString s.utf8ByteSize ++
        " chars). Consider shortening.\n"] <+: stdout (turn lib apiKey h w).trace ∧
    built (turn lib apiKey h w).trace = [⟨"gpt-3.5-turbo", h ++ [⟨"user", s⟩]⟩] ∧
    (h ++ [⟨"user", s⟩]) <+: (turn lib apiKey h w).history ∧
    (turn lib apiKey h w).exit = none ∧
    (∀ jsonData, lib.Marshal ⟨"gpt-3.5-turbo", h ++ [⟨"user", s⟩]⟩ = .ok jsonData →
      lib.NewRequest "POST" apiURL = none →
      sent (turn lib apiKey h w).trace =
        [⟨"POST", apiURL, [("Authorization", ["Bearer " ++ apiKey]),
          ("Content-Type", ["application/json"])], jsonData⟩]) ∧
    (∀ jsonData resp c cs,
      lib.Marshal ⟨"gpt-3.5-turbo", h ++ [⟨"user", s⟩]⟩ = .ok jsonData →
      lib.NewRequest "POST" apiURL = none →
      w.Do (mkRequest apiKey jsonData) = .ok resp → resp.StatusCode = 200 →
      lib.Unmarshal resp.Body = .ok ⟨c :: cs⟩ →
      turn lib apiKey h w =
        ⟨h ++ [⟨"user", s⟩] ++ [⟨c.Message.Role, c.Message.Content⟩],
          [.print ">> ",
            .print ("⚠️ Warning: Input is very long (" ++ toString s.utf8ByteSize ++
              " chars). Consider shortening.\n"),
            .marshal ⟨"gpt-3.5-turbo", h ++ [⟨"user", s⟩]⟩,
            .httpDo (mkRequest apiKey jsonData),
            .print ("GPT: " ++ c.Message.Content ++ "\n")],
          none⟩) ∧
    turn lib apiKey h w =
      ⟨(send lib apiKey (h ++ [⟨"user", s⟩]) w).history,
        [.print ">> ",
          .print ("⚠️ Warning: Input is very long (" ++ toString s.utf8ByteSize ++
            " chars). Consider shortening.\n")] ++
          (send lib apiKey (h ++ [⟨"user", s⟩]) w).trace,
        none⟩ := by
  subst hs
  have hb : 3000 < (TrimSpace w.line.data).utf8ByteSize :=
    lt_of_lt_of_le hlen (length_le_utf8ByteSize _)
  obtain ⟨h1, h2, h3⟩ := chat_of_long _ hb
  have t := turn_of_chat lib apiKey h w h1 h2 h3
  rw [lengthWarning_of_long _ hb, send_exit] at t
  refine ⟨stdout_of_long lib apiKey h w hb, ?_, ?_, ?_, ?_, ?_, t⟩
  · rw [turn_chat_built lib apiKey h w h1 h2 h3]
    exact send_built lib apiKey _ w
  · rw [t]
    rcases send_history lib apiKey (h ++ [⟨"user", TrimSpace w.line.data⟩]) w with e | ⟨x, e⟩
    · rw [e]
    · rw [e]; exact List.prefix_append _ _
  · rw [t]
  · intro jsonData hm hn
    rw [turn_chat_sent lib apiKey h w h1 h2 h3]
    rcases send_sent lib apiKey (h ++ [⟨"user", TrimSpace w.line.data⟩]) w with
      ⟨_, ⟨x, hx⟩ | ⟨x, hx⟩⟩ | ⟨j, hj, _, e⟩
    · rw [hm] at hx; cases hx
    · rw [hn] at hx; cases hx
    · rw [hm] at hj
      cases hj
      rw [e]
      simp [mkRequest, Header.Set]
  · intro jsonData resp c cs hm hn hd h200 hu
    have e : send lib apiKey (h ++ [⟨"user", TrimSpace w.line.data⟩]) w =
        ⟨h ++ [⟨"user", TrimSpace w.line.data⟩] ++ [⟨c.Message.Role, c.Message.Content⟩],
          [.marshal ⟨"gpt-3.5-turbo", h ++ [⟨"user", TrimSpace w.line.data⟩]⟩,
            .httpDo (mkRequest apiKey jsonData),
            .print ("GPT: " ++ c.Message.Content ++ "\n")], none⟩ := by
      simp [send, hm, hn, hd, h200, hu]
    rw [t, e]
    rfl

/-- C9 on a line of 3001 letters `a` after key `sk-test`: one POST reaches the
transport, and on the answer of the scenario the History ends with the
complete user message and the reply. -/
theorem long_input_still_sent_witness :
    sent (turn scenarioLib "sk-test" [systemPrompt]
        (world ⟨List.replicate 3001 'a'⟩ (.ok ⟨"200 OK", 200, helloBody⟩))).trace =
      [⟨"POST", apiURL, [("Authorization", ["Bearer sk-test"]),
        ("Content-Type", ["application/json"])], "body"⟩] ∧
    built (turn scenarioLib "sk-test" [systemPrompt]
        (world ⟨List.replicate 3001 'a'⟩ (.ok ⟨"200 OK", 200, helloBody⟩))).trace =
      [⟨"gpt-3.5-turbo", [systemPrompt, ⟨"user", ⟨List.replicate 3001 'a'⟩⟩]⟩] ∧
    (turn scenarioLib "sk-test" [systemPrompt]
        (world ⟨List.replicate 3001 'a'⟩ (.ok ⟨"200 OK", 200, helloBody⟩))).history =
      [systemPrompt, ⟨"user", ⟨List.replicate 3001 'a'⟩⟩, ⟨"assistant", "hi there"⟩] :=
  ⟨(long_input_still_sent scenarioLib "sk-test" [systemPrompt]
      (world ⟨List.replicate 3001 'a'⟩ (.ok ⟨"200 OK", 200, helloBody⟩))
      ⟨List.replicate 3001 'a'⟩ (TrimSpace_replicate 3001 'a' (by decide))
      (by simp only [String.length, List.length_replicate]; omega)).2.2.2.2.1 "body" rfl rfl,
    (long_input_still_sent scenarioLib "sk-test" [systemPrompt]
      (world ⟨List.replicate 3001 'a'⟩ (.ok ⟨"200 OK", 200, helloBody⟩))
      ⟨List.replicate 3001 'a'⟩ (TrimSpace_replicate 3001 'a' (by decide))
      (by simp only [String.length, List.length_replicate]; omega)).2.1,
    congrArg TurnResult.history
      ((long_input_still_sent scenarioLib "sk-test" [systemPrompt]
        (world ⟨List.replicate 3001 'a'⟩ (.ok ⟨"200 OK", 200, helloBody⟩))
        ⟨List.replicate 3001 'a'⟩ (TrimSpace_replicate 3001 'a' (by decide))
        (by simp only [String.length, List.length_replicate]; omega)).2.2.2.2.2.1
        "body" ⟨"200 OK", 200, helloBody⟩ ⟨⟨"assistant", "hi there"⟩, "stop"⟩ []
        rfl rfl rfl rfl rfl)⟩

/-- C10. A turn writes the length warning reporting the number `n` if and only
if the trimmed input has more than 3000 bytes in UTF-8 and `n` is that number
of bytes; it then follows the prompt directly. The character count does not
decide it: the input of 1001 euro signs has 1001 characters and 3003 bytes,
and its turn writes the warning with the number 3003. -/
theorem warning_counts_bytes (lib : Lib) (apiKey : String) (h : List ChatMessage)
    (w : World) :
    (∀ n : Nat,
      Event.print ("⚠️ Warning: Input is very long (" ++ toString n ++
          " chars). Consider shortening.\n") ∈ (turn lib apiKey h w).trace ↔
        3000 < (TrimSpace w.line.data).utf8ByteSize ∧
          n = (TrimSpace w.line.data).utf8ByteSize) ∧
    (3000 < (TrimSpace w.line.data).utf8ByteSize →
      [">> ", "⚠️ Warning: Input is very long (" ++
          toString (TrimSpace w.line.data).utf8ByteSize ++
          " chars). Consider shortening.\n"] <+: stdout (turn lib apiKey h w).trace) ∧
    (String.mk (List.replicate 1001 '€')).length = 1001 ∧
    (String.mk (List.replicate 1001 '€')).utf8ByteSize = 3003 ∧
    (∀ a, [">> ", "⚠️ Warning: Input is very long (3003 chars). Consider shortening.\n"] <+:
      stdout (turn lib apiKey h (world ⟨List.replicate 1001 '€'⟩ a)).trace) := by
  have euro : (String.mk (List.replicate 1001 '€')).utf8ByteSize = 3003 := by
    rw [utf8ByteSize_replicate]; decide
  refine ⟨fun n => warning_mem_turn lib apiKey h w n, stdout_of_long lib apiKey h w, ?_, euro,
    fun a => ?_⟩
  · simp only [String.length, List.length_replicate]
  · have tr : TrimSpace (world ⟨List.replicate 1001 '€'⟩ a).line.data =
        ⟨List.replicate 1001 '€'⟩ := TrimSpace_replicate 1001 '€' (by decide)
    have hb : 3000 < (TrimSpace (world ⟨List.replicate 1001 '€'⟩ a).line.data).utf8ByteSize := by
      rw [tr, euro]; decide
    have p := stdout_of_long lib apiKey h (world ⟨List.replicate 1001 '€'⟩ a) hb
    rw [tr, euro] at p
    exact p

/-- C10 on the input of 1001 euro signs after key `sk-test`: the warning with
3003 follows the prompt, and no warning with 1001 is written. -/
theorem warning_counts_bytes_witness :
    [">> ", "⚠️ Warning: Input is very long (3003 chars). Consider shortening.\n"] <+:
      stdout (turn scenarioLib "sk-test" [systemPrompt]
        (world ⟨List.replicate 1001 '€'⟩ (.error "reset"))).trace ∧
    Event.print "⚠️ Warning: Input is very long (1001 chars). Consider shortening.\n" ∉
      (turn scenarioLib "sk-test" [systemPrompt]
        (world ⟨List.replicate 1001 '€'⟩ (.error "reset"))).trace := by
  have hb : (TrimSpace (world ⟨List.replicate 1001 '€'⟩ (.error "reset")).line.data).utf8ByteSize
      = 3003 := by
    show (TrimSpace ⟨List.replicate 1001 '€'⟩).utf8ByteSize = 3003
    rw [TrimSpace_replicate 1001 '€' (by decide), utf8ByteSize_replicate]; decide
  have p := (warning_counts_bytes scenarioLib "sk-test" [systemPrompt]
    (world ⟨List.replicate 1001 '€'⟩ (.error "reset"))).2.1 (by rw [hb]; decide)
  have q := (warning_counts_bytes scenarioLib "sk-test" [systemPrompt]
    (world ⟨List.replicate 1001 '€'⟩ (.error "reset"))).1 1001
  rw [hb] at p q
  exact ⟨p, fun hmem => absurd (q.1 hmem).2 (by decide)⟩

end ChatRepl
